import Mathlib

/-!
Verification development for the MrFrenchRules interview pipeline.

Python strings are modelled as lists of characters (`PyStr`), with the
string operations the source uses (`strip`, `lower`, `upper`, substring
containment, splitting) embedded as executable functions.  The chat
handler, document chunker, rule-extraction post-processing, ingestion
loop and conversation classifier are shallow embeddings of the
corresponding functions in `src/main.py`, `src/interview_ai.py`,
`src/document_processor.py` and `src/chroma_client.py`.
-/

/-- Python strings, modelled as lists of characters. -/
abbrev PyStr := List Char

/-- Coerce a Lean string literal to the `PyStr` model. -/
def s (x : String) : PyStr := x.data

/-- Whitespace characters recognised by Python `str.strip` (ASCII fragment). -/
def pyIsSpace (c : Char) : Bool :=
  c = ' ' || c = '\t' || c = '\n' || c = '\x0d' || c = '\x0b' || c = '\x0c'

/-- Python `str.strip()`: drop leading and trailing whitespace. -/
def pyStrip (l : PyStr) : PyStr :=
  ((l.dropWhile pyIsSpace).reverse.dropWhile pyIsSpace).reverse

/-- Python `str.lower()` (ASCII fragment). -/
def pyLower (l : PyStr) : PyStr := l.map Char.toLower

/-- Python `str.upper()` (ASCII fragment). -/
def pyUpper (l : PyStr) : PyStr := l.map Char.toUpper

/-- Python `needle in hay` substring containment. -/
def pyContains (hay needle : PyStr) : Bool :=
  (List.range (hay.length + 1)).any fun i => needle.isPrefixOf (hay.drop i)

/-- Python `str.split(sep)` for a single-character separator. -/
def pySplitCharAux (sep : Char) : PyStr → PyStr → List PyStr
  | [], acc => [acc.reverse]
  | c :: rest, acc =>
    if c = sep then acc.reverse :: pySplitCharAux sep rest []
    else pySplitCharAux sep rest (c :: acc)

def pySplitChar (sep : Char) (l : PyStr) : List PyStr := pySplitCharAux sep l []

/-- Regex word character (`\w`, ASCII fragment): letters, digits, underscore. -/
def isWordChar (c : Char) : Bool := c.isAlphanum || c = '_'

/-- Whether the character at position `i` (if any) is a word character. -/
def wordCharAt (l : PyStr) (i : Nat) : Bool :=
  match l.drop i with
  | [] => false
  | c :: _ => isWordChar c

/-- Whether position `p` of `l` is a regex word boundary (`\b`). -/
def isBoundary (l : PyStr) (p : Nat) : Bool :=
  (if p = 0 then false else wordCharAt l (p - 1)) != wordCharAt l p

/-- Whether `re.search(r"\b" + re.escape(phrase) + r"\b", text)` succeeds at position `i`. -/
def matchesPhraseAt (text phrase : PyStr) (i : Nat) : Bool :=
  phrase.isPrefixOf (text.drop i) && isBoundary text i && isBoundary text (i + phrase.length)

/-- Embeds `_matches_phrase` from `src/main.py`: whole-word/phrase regex search. -/
def matches_phrase (text phrase : PyStr) : Bool :=
  (List.range (text.length + 1)).any (matchesPhraseAt text phrase)

/-- Embeds `_any_phrase` from `src/main.py`. -/
def any_phrase (text : PyStr) (phrases : List PyStr) : Bool :=
  phrases.any (matches_phrase text)

example : pyStrip (s "  hi  ") = s "hi" := by decide
example : pyContains (s "abc") (s "bc") = true := by decide
example : pyContains (s "abc") (s "cb") = false := by decide
example : matches_phrase (s "oh hi there") (s "hi") = true := by decide
example : matches_phrase (s "ohhi there") (s "hi") = false := by decide
example : pySplitChar '\n' (s "a\nb") = [s "a", s "b"] := by decide

/-- The `greetings` phrase list of the classifier (`src/main.py` line 159). -/
def greetings : List PyStr := [s "hello", s "hi", s "hey"]

/-- The `smalltalk` phrase list of the classifier (`src/main.py` line 160). -/
def smalltalk : List PyStr :=
  [s "how are you", s "how r u", s "how are u", s "how\x27s it going"]

/-- The `who_are_you` phrase list of the classifier (`src/main.py` line 161). -/
def who_are_you : List PyStr := [s "who are you", s "who r u", s "what are you"]

/-- The `who_is_mrfrench` phrase list of the classifier (`src/main.py` line 162). -/
def who_is_mrfrench : List PyStr := [s "who is mr french", s "what is mr french"]

/-- The `who_is_timmy` phrase list of the classifier (`src/main.py` line 163). -/
def who_is_timmy : List PyStr := [s "who is timmy", s "what is timmy"]

/-- The `about_interview` phrase list of the classifier (`src/main.py` lines 164-167). -/
def about_interview : List PyStr :=
  [s "what is this about", s "what is this interview about", s "what is this interview",
   s "what\x27s this about", s "why am i here", s "what will you ask",
   s "purpose of this interview", s "what is this for"]

/-- Embeds `is_smalltalk_or_project` from `src/main.py` (lines 155-180):
classifies an expert message into one of seven labels by case-insensitive
whole-word/phrase matching. -/
def is_smalltalk_or_project (message : PyStr) : PyStr :=
  let m := pyLower (pyStrip message)
  if m.isEmpty then s "none"
  else if any_phrase m greetings then s "greeting"
  else if any_phrase m smalltalk then s "smalltalk"
  else if any_phrase m who_are_you then s "who_are_you"
  else if any_phrase m who_is_mrfrench then s "who_is_mrfrench"
  else if any_phrase m who_is_timmy then s "who_is_timmy"
  else if any_phrase m about_interview then s "about_interview"
  else s "none"

example : is_smalltalk_or_project (s "hi") = s "greeting" := by decide
example : is_smalltalk_or_project (s "  Who ARE you?") = s "who_are_you" := by decide
example : is_smalltalk_or_project (s "my expertise is parenting") = s "none" := by decide

/-- The character class `[\).:-]` in the leading-enumeration regex of
`sanitize_question`. -/
def enumTailChar (c : Char) : Bool := c = ')' || c = '.' || c = ':' || c = '-'

/-- The bullet class `[-*•]` in the leading-enumeration regex of
`sanitize_question`. -/
def bulletChar (c : Char) : Bool := c = '-' || c = '*' || c = '•'

/-- Match `[\).:-]\s+` at the head of `l`, returning the remainder. -/
def matchEnumTail : PyStr → Option PyStr
  | c :: c2 :: rest =>
    if enumTailChar c && pyIsSpace c2 then some ((c2 :: rest).dropWhile pyIsSpace) else none
  | _ => none

/-- Match `\)?[\).:-]\s+` at the head of `l` (greedy on the optional `)`),
returning the remainder. -/
def matchAfterDigits (r : PyStr) : Option PyStr :=
  match r with
  | ')' :: r3 => (matchEnumTail r3).orElse fun _ => matchEnumTail r
  | _ => matchEnumTail r

/-- Match the first alternative `\(?\d+\)?[\).:-]\s+` of the
leading-enumeration regex, returning the remainder. -/
def matchEnumAlt1 (rest : PyStr) : Option PyStr :=
  let r1 := match rest with | '(' :: t => t | _ => rest
  let digits := r1.takeWhile Char.isDigit
  if digits.isEmpty then none else matchAfterDigits (r1.drop digits.length)

/-- Match the second alternative `[-*•]\s+` of the leading-enumeration regex,
returning the remainder. -/
def matchEnumAlt2 : PyStr → Option PyStr
  | c :: c2 :: rest =>
    if bulletChar c && pyIsSpace c2 then some ((c2 :: rest).dropWhile pyIsSpace) else none
  | _ => none

/-- One line of `sanitize_question`:
`re.sub(r"^\s*(?:\(?\d+\)?[\).:-]\s+|[-*•]\s+)", "", line)`. -/
def stripLeadEnumLine (line : PyStr) : PyStr :=
  let rest := line.dropWhile pyIsSpace
  match (matchEnumAlt1 rest).orElse fun _ => matchEnumAlt2 rest with
  | some rem => rem
  | none => line

/-- Python `str.splitlines()` (newline-only fragment). -/
def pySplitLines (t : PyStr) : List PyStr :=
  if t.isEmpty then []
  else if t.getLast? = some '\n' then (pySplitChar '\n' t).dropLast
  else pySplitChar '\n' t

/-- Embeds `sanitize_question` from `src/main.py` (lines 115-126): remove
leading numbering/bullet markers from each line, rejoin, strip. -/
def sanitize_question (text : PyStr) : PyStr :=
  pyStrip (List.intercalate (s "\n") ((pySplitLines text).map stripLeadEnumLine))

example : sanitize_question (s "1. What is your approach?") = s "What is your approach?" := by
  decide
example : sanitize_question (s "  (2): Next question") = s "Next question" := by decide
example : sanitize_question (s "- bullet item") = s "bullet item" := by decide
example : sanitize_question (s "No marker here") = s "No marker here" := by decide

/-- The punctuation class stripped from the front of a reply in
`clean_response` (`[!@#$%^&*()_+\-=\[\]{};':"\\|,.<>\/\s]`). -/
def punctClassChar (c : Char) : Bool :=
  c = '!' || c = '@' || c = '#' || c = '$' || c = '%' || c = '^' || c = '&' || c = '*' ||
  c = '(' || c = ')' || c = '_' || c = '+' || c = '-' || c = '=' || c = '[' || c = ']' ||
  c = '\x7b' || c = '\x7d' || c = ';' || c = '\x27' || c = ':' || c = '"' || c = '\\' ||
  c = '|' || c = ',' || c = '.' || c = '<' || c = '>' || c = '/' || pyIsSpace c

/-- Straight or smart quote characters recognised by `clean_response`. -/
def quoteChar (c : Char) : Bool := c = '"' || c = '“' || c = '”' || c = '\x27'

/-- The second substitution of `clean_response`:
`re.sub(r(dquote)^["“”\x27](.+)["“”\x27]$(dquote), r(dquote)\1(dquote), cleaned)`. -/
def stripWrapQuotes (l : PyStr) : PyStr :=
  match l with
  | [] => []
  | c :: rest =>
    if quoteChar c && rest.length ≥ 2 &&
        (match rest.getLast? with | some d => quoteChar d | none => false) &&
        !(rest.dropLast.contains '\n') then
      rest.dropLast
    else c :: rest

/-- Embeds `clean_response` from `src/main.py` (lines 183-192): strip leading
punctuation artifacts and wrapping quotes. -/
def clean_response (text : PyStr) : PyStr :=
  let content := pyStrip text
  let cleaned := content.dropWhile punctClassChar
  let cleaned2 := stripWrapQuotes cleaned
  if cleaned2.isEmpty then text else pyStrip cleaned2

example : clean_response (s "...  Hello there") = s "Hello there" := by decide
example : clean_response (s "\"What is next?\"") = s "What is next?\"" := by decide
example : clean_response (s "“What is next?”") = s "What is next?" := by decide
example : clean_response (s "!!!") = s "!!!" := by decide

/-- The fixed document-query patterns of the `/chat` handler
(`src/main.py` lines 606-611). -/
def doc_query_patterns : List PyStr :=
  [s "see my doc", s "uploaded file", s "check my pdf", s "check my ppt", s "check my doc",
   s "my document", s "the file i uploaded", s "uploaded document", s "can you see",
   s "do you have", s "check the document", s "look at my", s "review my doc",
   s "whats in", s "what\x27s in", s "what is in", s "in this doc", s "in my doc",
   s "contents of"]

/-- Embeds `is_doc_query` of the `/chat` handler: any pattern occurs in the lowered
message (`src/main.py` line 613). -/
def isDocQuery (message : PyStr) : Bool :=
  doc_query_patterns.any fun p => pyContains (pyLower message) p

example : isDocQuery (s "Can you check my PDF?") = true := by decide
example : isDocQuery (s "hi") = false := by decide

/-- Embeds the bulk-context per-document sampling of the `/chat` handler
(`src/main.py` lines 846-854): all chunks when at most 3, first two / middle
two / last two when at most 6, first three / middle two / last three
otherwise. -/
def sampleChunksForContext (chunks : List PyStr) : List PyStr :=
  if chunks.length ≤ 3 then chunks
  else if chunks.length ≤ 6 then
    chunks.take 2 ++ (chunks.drop (chunks.length / 2 - 1)).take 2
      ++ chunks.drop (chunks.length - 2)
  else
    chunks.take 3 ++ (chunks.drop (chunks.length / 2 - 1)).take 2
      ++ chunks.drop (chunks.length - 3)

example : sampleChunksForContext [s "a", s "b", s "c"] = [s "a", s "b", s "c"] := by decide
example :
    (sampleChunksForContext ((List.range 8).map fun n => (toString n).data)).length = 8 := by
  decide

/-- The canned greeting response of the `/chat` handler (`src/main.py` lines 723-728). -/
def greetingResponse : PyStr :=
  s "Hi! I\x27m here to interview you about improving Mr. French, our conversational AI family assistant. Mr. French helps families manage children\x27s routines, tasks, and behavior through connected chats between parents and children. This interview is to extract expert rules to make Mr. French better at supporting families. Would you like to know about our current implementation details and how you can help?"

/-- The canned small-talk response (`src/main.py` lines 730-735). -/
def smalltalkResponse : PyStr :=
  s "I\x27m good, thanks for asking! I\x27m here to interview you about improving Mr. French, our conversational AI family assistant. Mr. French helps families manage children\x27s routines, tasks, and behavior through connected chats between parents and children. This interview is to extract expert rules to make Mr. French better at supporting families. Would you like to know about our current implementation details and how you can help?"

/-- The canned who-are-you response (`src/main.py` lines 737-742). -/
def whoAreYouResponse : PyStr :=
  s "I\x27m an AI interviewer to capture your expertise for improving Mr. French, our conversational AI family assistant. Mr. French helps families manage children\x27s routines, tasks, and behavior through connected chats between parents and children. This interview is to extract expert rules to make Mr. French better at supporting families. Would you like to know about our current implementation details and how you can help?"

/-- The canned who-is-mrfrench response (`src/main.py` lines 744-748). -/
def whoIsMrFrenchResponse : PyStr :=
  s "Mr. French is a conversational AI family assistant. It turns everyday parent instructions into structured tasks with due dates, reminders, and rewards. There are three connected chats: Parent ↔ Mr. French (to create/manage tasks and get progress), Timmy (child) ↔ Mr. French (to receive reminders, encouragement, and complete tasks), and Parent ↔ Timmy (to capture real instructions). It keeps context over time and uses a simple Red/Green/Blue \x27Timmy Zone\x27 to guide tone and responses. Would you like to know more about the current implementation details?"

/-- The canned who-is-timmy response (`src/main.py` lines 750-753). -/
def whoIsTimmyResponse : PyStr :=
  s "Timmy is the child persona that Mr. French supports. Timmy receives friendly reminders, step-by-step help, encouragement, and simple rewards for completing tasks like homework, chores, and bedtime routines. Mr. French adjusts its tone using the Red/Green/Blue \x27Timmy Zone\x27 (e.g., calm guidance if Timmy is frustrated). Would you like to know more about the current implementation details?"

/-- The canned about-interview response (`src/main.py` lines 755-758). -/
def aboutInterviewResponse : PyStr :=
  s "In this interview, we\x27ll discuss your expertise, guiding principles, outcomes you aim for, how you measure progress, methods you use, challenges you face, and more related to your area of expertise. We capture your expertise so Mr. French behaves like an expert in real family conversations. Would you like to know about our current implementation details first?"

/-- The small-talk/project labels handled by the index-0 guard
(`src/main.py` line 720). -/
def smalltalk_labels : List PyStr :=
  [s "greeting", s "smalltalk", s "who_are_you", s "who_is_mrfrench", s "who_is_timmy",
   s "about_interview"]

/-- The `if msg_type == ... / elif ... / else` chain choosing the canned
response (`src/main.py` lines 721-758). -/
def smalltalkCannedResponse (msg_type : PyStr) : PyStr :=
  if msg_type = s "greeting" then greetingResponse
  else if msg_type = s "smalltalk" then smalltalkResponse
  else if msg_type = s "who_are_you" then whoAreYouResponse
  else if msg_type = s "who_is_mrfrench" then whoIsMrFrenchResponse
  else if msg_type = s "who_is_timmy" then whoIsTimmyResponse
  else aboutInterviewResponse

/-- The fixed closing turn appended on the completion transition
(`src/main.py` line 924). -/
def finalNoteText : PyStr :=
  s "Thank you for sharing your valuable expertise! The interview is now complete. Your insights will help improve Mr. French\x27s ability to support families."

/-- Decimal rendering of a natural number, as Python string interpolation. -/
def natPyStr (n : Nat) : PyStr := (toString n).data

/-- Insertion-ordered grouping step for `doc_content_map` (`src/main.py`
lines 650-657): append `content` to the entry of `title`, creating it at the
end if absent. -/
def addToGroup (m : List (PyStr × List PyStr)) (title content : PyStr) :
    List (PyStr × List PyStr) :=
  match m with
  | [] => [(title, [content])]
  | (t, cs) :: rest =>
    if t = title then (t, cs ++ [content]) :: rest
    else (t, cs) :: addToGroup rest title content

/-- Group session chunks `(content, title)` by document title, preserving
first-occurrence order, as the Python dict `doc_content_map` does. -/
def groupByTitle (chunks : List (PyStr × PyStr)) : List (PyStr × List PyStr) :=
  chunks.foldl (fun m p => addToGroup m p.2 p.1) []

/-- Per-document sampling of the document-query reply (`src/main.py` lines
663-671): all chunks when at most 4, else first two, middle two and last two. -/
def sampleChunksForDisplay (chunks : List PyStr) : List PyStr :=
  if chunks.length ≤ 4 then chunks
  else
    chunks.take 2 ++ (chunks.drop (chunks.length / 2 - 1)).take 2
      ++ chunks.drop (chunks.length - 2)

/-- The per-document content of a document-query reply section, including the
truncation note for larger documents (`src/main.py` lines 663-671). -/
def docSectionContent (chunks : List PyStr) : PyStr :=
  if chunks.length ≤ 4 then List.intercalate (s " ") chunks
  else
    List.intercalate (s " ") (sampleChunksForDisplay chunks)
      ++ s "\n\n[Note: This document has " ++ natPyStr chunks.length
      ++ s " total sections. Showing key sections above.]"

/-- The document-query reply built from the session chunks `(content, title)`
(`src/main.py` lines 659-677). -/
def buildDocQueryReply (chunks : List (PyStr × PyStr)) : PyStr :=
  let sections := (groupByTitle chunks).map fun p =>
    s "**" ++ p.1 ++ s ":**\n" ++ docSectionContent p.2
  s "Here\x27s what I found in your documents:\n\n" ++ List.intercalate (s "\n\n") sections
    ++ s "\n\nThis is the actual content from your uploaded documents. What would you like to know about them?"

/-- Outcome of the document lookups performed by the document-query branch of
the `/chat` handler: the branch taken and the data it saw. -/
inductive DocLookup where
  /-- `get_session_documents` (outer try) raised. -/
  | lookupError : DocLookup
  /-- The session has no documents. -/
  | noDocs : DocLookup
  /-- Documents exist but reading their chunks raised (inner try). -/
  | innerError (titles : List PyStr) : DocLookup
  /-- Documents exist but the chunk query returned no content. -/
  | chunksEmpty (titles : List PyStr) : DocLookup
  /-- Documents exist with stored chunks `(content, title)`. -/
  | chunksFound (chunks : List (PyStr × PyStr)) : DocLookup
deriving DecidableEq, Repr

/-- The assistant reply of the document-query branch for each lookup outcome
(`src/main.py` lines 615-716). -/
def docReply : DocLookup → PyStr
  | .lookupError =>
    s "I\x27m having trouble accessing document information right now, but I can still help with the interview. Would you like to continue with the questions?"
  | .noDocs =>
    s "I don\x27t see any uploaded documents for this session yet. You can upload PDF, DOCX, PPTX, or TXT files using the attachment button, and I\x27ll be able to reference their content in our discussion."
  | .innerError titles =>
    s "I can see your document \x27" ++ List.intercalate (s ", ") titles
      ++ s "\x27 but had trouble accessing its content. Would you like to try asking again or continue with the interview questions?"
  | .chunksEmpty titles =>
    s "I can see your document \x27" ++ List.intercalate (s ", ") titles
      ++ s "\x27 but couldn\x27t retrieve its content. Would you like to try asking again or continue with the interview questions?"
  | .chunksFound chunks => buildDocQueryReply chunks

/-- One message of a session transcript. -/
structure Msg where
  role : String
  content : PyStr
deriving DecidableEq, Repr

/-- The persisted per-session state the `/chat` handler reads and writes
(`conversation_history`, `current_question_index`, `is_complete`). -/
structure SessionData where
  conversation_history : List Msg
  current_question_index : Nat
  is_complete : Bool
deriving DecidableEq, Repr

/-- The observable response of one `/chat` request. -/
inductive ChatResult where
  /-- An `HTTPException` was raised. -/
  | httpError (statusCode : Nat) (detail : PyStr) : ChatResult
  /-- The session was already complete. -/
  | completedNotice : ChatResult
  /-- A normal turn reply: message, question number, completion flag,
  auto-submission flag, optional final note. -/
  | turnReply (message : PyStr) (questionNumber : Nat) (isCompleteFlag : Bool)
      (autoSubmitted : Bool) (finalNote : Option PyStr) : ChatResult
deriving DecidableEq, Repr

/-- The full effect of one `/chat` request: the response, the session state
persisted after the turn, and whether rule extraction was invoked. -/
structure ChatOutcome where
  result : ChatResult
  persisted : SessionData
  extractionInvoked : Bool
deriving DecidableEq, Repr

/-- The completion heuristic of the `/chat` handler (`src/main.py` line 921):
the incremented index reached 23, or the sanitized reply contains "conclude"
or "summary". -/
def completion_condition (idx : Nat) (ai : PyStr) : Bool :=
  decide (23 ≤ idx) || pyContains (pyLower ai) (s "conclude")
    || pyContains (pyLower ai) (s "summary")

/-- Embeds the `/chat` handler `chat_with_interviewer` (`src/main.py` lines
575-947) as a state transition.  External effects are inputs: `doc` is the
outcome of the document lookups, `completion` the outcome of the completion
capability call, `submitOk` whether the auto-submitted rule extraction
succeeded. -/
def chat_with_interviewer (pre : SessionData) (message : PyStr) (doc : DocLookup)
    (completion : Except PyStr PyStr) (submitOk : Bool) : ChatOutcome :=
  if pre.is_complete then
    { result := .completedNotice, persisted := pre, extractionInvoked := false }
  else
    let hist1 := pre.conversation_history ++ [⟨"user", message⟩]
    if isDocQuery message then
      let ai := docReply doc
      { result := .turnReply ai (pre.current_question_index + 1) false false none,
        persisted := { conversation_history := hist1 ++ [⟨"assistant", ai⟩],
                       current_question_index := pre.current_question_index,
                       is_complete := pre.is_complete },
        extractionInvoked := false }
    else
      let msg_type := is_smalltalk_or_project message
      if pre.current_question_index = 0 && smalltalk_labels.contains msg_type then
        let ai := smalltalkCannedResponse msg_type
        { result := .turnReply (sanitize_question ai) 1 false false none,
          persisted := { conversation_history := hist1 ++ [⟨"assistant", ai⟩],
                         current_question_index := 1,
                         is_complete := false },
          extractionInvoked := false }
      else
        match completion with
        | .error e =>
          { result := .httpError 500 (s "Error in conversation: " ++ e),
            persisted := pre, extractionInvoked := false }
        | .ok raw =>
          let ai := clean_response (sanitize_question raw)
          let hist2 := hist1 ++ [⟨"assistant", ai⟩]
          let idx := pre.current_question_index + 1
          if completion_condition idx ai then
            { result := .turnReply ai (idx + 1) true submitOk (some finalNoteText),
              persisted := { conversation_history := hist2 ++ [⟨"assistant", finalNoteText⟩],
                             current_question_index := idx,
                             is_complete := true },
              extractionInvoked := true }
          else
            { result := .turnReply ai (idx + 1) false false none,
              persisted := { conversation_history := hist2,
                             current_question_index := idx,
                             is_complete := pre.is_complete },
              extractionInvoked := false }

/-- The sentinel variants skipped by the rule filter
(`src/interview_ai.py` line 318). -/
def sentinel_variants : List PyStr :=
  [s "NONE", s "NO RULES", s "NO BEHAVIORAL RULES", s "N/A"]

/-- The domain-relevance keyword set of the rule filter
(`src/interview_ai.py` line 322). -/
def behavioral_terms : List PyStr :=
  [s "child", s "parent", s "family", s "behavior", s "task", s "routine", s "jamie"]

/-- A line survives the rule filter: not a sentinel variant, at least 20
characters, and containing a domain keyword. -/
def keepTaskStatement (task : PyStr) : Bool :=
  !(sentinel_variants.contains (pyUpper task)) && !(task.length < 20) &&
    (behavioral_terms.any fun term => pyContains (pyLower task) term)

/-- Embeds `_filter_task_statements` from `src/interview_ai.py` (lines
314-325): the loop with its three `continue` guards. -/
def filter_task_statements : List PyStr → List PyStr
  | [] => []
  | task :: rest =>
    if sentinel_variants.contains (pyUpper task) then filter_task_statements rest
    else if task.length < 20 then filter_task_statements rest
    else if !(behavioral_terms.any fun term => pyContains (pyLower task) term) then
      filter_task_statements rest
    else task :: filter_task_statements rest

/-- Embeds the post-processing of `extract_rules_from_conversation`
(`src/interview_ai.py` lines 344-348) applied to the raw model output:
sentinel/empty/short check, line split and strip, then the rule filter. -/
def extract_rules_postprocess (raw : PyStr) : List PyStr :=
  let tasks_text := pyStrip raw
  if pyUpper tasks_text = s "NONE" || tasks_text.isEmpty
      || (pyStrip tasks_text).length < 10 then []
  else
    filter_task_statements
      (((pySplitChar '\n' tasks_text).map pyStrip).filter fun t => !t.isEmpty)

example : extract_rules_postprocess (s "NONE") = [] := by decide
example : extract_rules_postprocess (s "none") = [] := by decide
example :
    extract_rules_postprocess
      (s "Jamie should praise the child for finishing homework.\nok") =
    [s "Jamie should praise the child for finishing homework."] := by decide

/-- Chunk-size constant of the document processor
(`src/document_processor.py` line 37). -/
def chunk_size : Nat := 500

/-- Python `text.split(". ")`: scan left to right, cutting at each
non-overlapping occurrence of the two-character separator. -/
def splitDotSpace : PyStr → PyStr → List PyStr
  | [], acc => [acc.reverse]
  | [c], acc => [(c :: acc).reverse]
  | c :: c2 :: rest, acc =>
    if c = '.' && c2 = ' ' then acc.reverse :: splitDotSpace rest []
    else splitDotSpace (c2 :: rest) (c :: acc)

example : splitDotSpace (s "a. b c. d") [] = [s "a", s "b c", s "d"] := by decide
example : splitDotSpace (s "a.. b") [] = [s "a.", s "b"] := by decide
example : splitDotSpace (s "") [] = [s ""] := by decide

/-- Embeds `_split_text_into_chunks` from `src/document_processor.py` (lines
281-304): split on `". "`, greedily accumulate with the 4-characters-per-token
estimate, flush on overflow, flush the trailing buffer. -/
def split_text_into_chunks (text : PyStr) : List PyStr :=
  let sentences := splitDotSpace text []
  let step := fun (st : List PyStr × PyStr) (sentence : PyStr) =>
    let estimated_tokens := (st.2 ++ sentence).length / 4
    if estimated_tokens > chunk_size && !st.2.isEmpty then
      (st.1 ++ [pyStrip st.2], sentence ++ s ". ")
    else (st.1, st.2 ++ sentence ++ s ". ")
  let fin := sentences.foldl step ([], [])
  if !(pyStrip fin.2).isEmpty then fin.1 ++ [pyStrip fin.2] else fin.1

example : split_text_into_chunks (s "") = [s "."] := by decide
example : split_text_into_chunks (s "Short text") = [s "Short text."] := by decide

/-- The derived chunk id of `process_uploaded_file`
(`src/document_processor.py` line 66), with the MD5 hex digest abstracted as
`hashHex`. -/
def chunk_id (hashHex : PyStr → PyStr) (session_id filename : PyStr) (i : Nat)
    (content : PyStr) : PyStr :=
  session_id ++ s "_" ++ filename ++ s "_" ++ natPyStr i ++ s "_" ++ (hashHex content).take 8

/-- One chunk persisted in the vector store: id, text content, metadata. -/
structure StoredChunk (μ : Type) where
  id : PyStr
  content : PyStr
  metadata : μ
deriving DecidableEq, Repr

/-- Whether a chunk id already exists in the store
(`self.collection.get(ids=[chunk_id])` check in `add_document_chunk`). -/
def idExists {μ : Type} (store : List (StoredChunk μ)) (cid : PyStr) : Bool :=
  store.any fun e => e.id = cid

/-- Embeds `add_document_chunk` from `src/chroma_client.py` (lines 111-156):
skip when the id already exists, otherwise add the chunk. -/
def add_document_chunk {μ : Type} (store : List (StoredChunk μ)) (cid content : PyStr)
    (meta : μ) : List (StoredChunk μ) :=
  if idExists store cid then store else store ++ [⟨cid, content, meta⟩]

/-- The chunk-storing loop of `process_uploaded_file`
(`src/document_processor.py` lines 63-97) over the enumerated chunks. -/
def ingestChunksAux {μ : Type} (hashHex : PyStr → PyStr) (session_id filename : PyStr)
    (metaOf : Nat → μ) : List (Nat × PyStr) → List (StoredChunk μ) → List (StoredChunk μ)
  | [], store => store
  | (i, content) :: rest, store =>
    ingestChunksAux hashHex session_id filename metaOf rest
      (add_document_chunk store (chunk_id hashHex session_id filename i content) content
        (metaOf i))

/-- Embeds the storage phase of `process_uploaded_file`
(`src/document_processor.py` lines 40-108): derive an id per enumerated chunk
and store it through `add_document_chunk`.  The per-chunk metadata (which
includes a wall-clock upload date) is abstracted as `metaOf`. -/
def process_uploaded_file {μ : Type} (hashHex : PyStr → PyStr)
    (store : List (StoredChunk μ)) (session_id filename : PyStr) (metaOf : Nat → μ)
    (content_chunks : List PyStr) : List (StoredChunk μ) :=
  ingestChunksAux hashHex session_id filename metaOf content_chunks.enum store

/-! ## Helper lemmas -/

/-- The rule filter loop is extensionally the `List.filter` of its validity
predicate. -/
lemma filter_task_statements_eq (l : List PyStr) :
    filter_task_statements l = l.filter keepTaskStatement := by
  induction l with
  | nil => rfl
  | cons task rest ih =>
    by_cases h1 : pyUpper task ∈ sentinel_variants
    · have hk : keepTaskStatement task = false := by simp [keepTaskStatement, h1]
      simp [filter_task_statements, h1, List.filter_cons, hk, ih]
    · by_cases h2 : task.length < 20
      · have hk : keepTaskStatement task = false := by simp [keepTaskStatement, h2]
        simp [filter_task_statements, h1, h2, List.filter_cons, hk, ih]
      · by_cases h3 : ∃ x ∈ behavioral_terms, pyContains (pyLower task) x = true
        · have hk : keepTaskStatement task = true := by
            simp [keepTaskStatement, h1, h2, h3]
          simp [filter_task_statements, h1, h2, h3, List.filter_cons, hk, ih]
        · have hany : (behavioral_terms.any fun term => pyContains (pyLower task) term)
              = false := by
            rw [List.any_eq_false]
            intro x hx
            by_contra hc
            exact h3 ⟨x, hx, by simpa using hc⟩
          have hk : keepTaskStatement task = false := by
            simp [keepTaskStatement, hany]
          simp [filter_task_statements, h1, h2, hany, List.filter_cons, hk, ih]

/-- Counting an element that satisfies the predicate is unchanged by
filtering. -/
lemma count_filter_of_keep {p : PyStr → Bool} {r : PyStr} (h : p r = true) (l : List PyStr) :
    (l.filter p).count r = l.count r := by
  induction l with
  | nil => rfl
  | cons a t ih =>
    by_cases ha : a = r
    · subst ha
      simp [List.filter_cons, h, List.count_cons, ih]
    · by_cases hp : p a = true
      · simp [List.filter_cons, hp, List.count_cons, ha, ih]
      · simp [List.filter_cons, hp, List.count_cons, ha, ih]

/-! ## Claim theorems -/

/-- C1: at question index 0 a greeting message gets the canned greeting
response appended, but the handler persists question index **1**, not 0 —
the code contradicts its own comment "without advancing the question index"
and the spec.  This theorem evaluates the handler at the failing input. -/
theorem c1_smalltalk_turn_at_index_zero :
    chat_with_interviewer ⟨[], 0, false⟩ (s "hi") DocLookup.noDocs (Except.error []) false =
      { result := .turnReply (sanitize_question greetingResponse) 1 false false none,
        persisted := { conversation_history :=
                         [⟨"user", s "hi"⟩, ⟨"assistant", greetingResponse⟩],
                       current_question_index := 1,
                       is_complete := false },
        extractionInvoked := false } := by
  rfl

/-- C2 counterexample: a document with 8 chunks is sampled to 8 chunks, not
at most 7, refuting the claimed bound. -/
theorem c2_sampling_eight_counterexample :
    ¬ (sampleChunksForContext ((List.range 8).map fun n => natPyStr n)).length ≤ 7 := by
  decide

/-- C2 (amended): bulk-context per-document sampling returns at most 8 chunks
regardless of the chunk count, and returns exactly all chunks when there are
at most 3. -/
theorem c2_sampling_bound (chunks : List PyStr) :
    (sampleChunksForContext chunks).length ≤ 8 ∧
      (chunks.length ≤ 3 → sampleChunksForContext chunks = chunks) := by
  constructor
  · by_cases h3 : chunks.length ≤ 3
    · simp [sampleChunksForContext, h3]
      omega
    · by_cases h6 : chunks.length ≤ 6
      · simp [sampleChunksForContext, h3, h6]
        omega
      · simp [sampleChunksForContext, h3, h6]
        omega
  · intro h
    simp [sampleChunksForContext, h]

/-- C2 witness: the amended bound applied at a concrete two-chunk document. -/
theorem c2_sampling_bound_witness :
    (sampleChunksForContext [s "a", s "b"]).length ≤ 8 ∧
      sampleChunksForContext [s "a", s "b"] = [s "a", s "b"] :=
  ⟨(c2_sampling_bound [s "a", s "b"]).1, (c2_sampling_bound [s "a", s "b"]).2 (by decide)⟩

/-- C3 counterexample: two extracted rules with identical text (hence an
identical normalized signature) both survive the filter — the output contains
both, not only one. -/
theorem c3_dedup_counterexample :
    ¬ ((filter_task_statements
          [s "Jamie should encourage the child to finish homework",
           s "Jamie should encourage the child to finish homework"]).count
        (s "Jamie should encourage the child to finish homework") ≤ 1) := by
  decide

/-- C3 (amended): the extraction filter performs no deduplication — its
output is exactly the input lines passing the sentinel/length/keyword
validity predicate, preserving multiplicity, so rules with identical
signatures all remain. -/
theorem c3_filter_no_dedup (raw_tasks : List PyStr) (r : PyStr)
    (h : keepTaskStatement r = true) :
    filter_task_statements raw_tasks = raw_tasks.filter keepTaskStatement ∧
      (filter_task_statements (raw_tasks ++ [r, r])).count r = raw_tasks.count r + 2 := by
  refine ⟨filter_task_statements_eq raw_tasks, ?_⟩
  rw [filter_task_statements_eq, count_filter_of_keep h]
  simp [List.count_append, List.count_cons]

/-- C3 witness: the amended statement applied at a concrete duplicate pair. -/
theorem c3_filter_no_dedup_witness :
    filter_task_statements [s "too short"] = [] ∧
      (filter_task_statements
        [s "Jamie should let the child take a calm break",
         s "Jamie should let the child take a calm break"]).count
        (s "Jamie should let the child take a calm break") = 2 := by
  have h := c3_filter_no_dedup []
    (s "Jamie should let the child take a calm break") (by decide)
  refine ⟨by decide, ?_⟩
  simpa using h.2

/-- C5: if the completion capability call fails on a substantive turn, the
handler raises an explicit error and the persisted session state is exactly
the pre-turn state: no turn appended, index and completion flag unchanged. -/
theorem c5_completion_failure (pre : SessionData) (message : PyStr) (doc : DocLookup)
    (e : PyStr) (submitOk : Bool)
    (hc : pre.is_complete = false)
    (hd : isDocQuery message = false)
    (hs : (decide (pre.current_question_index = 0) &&
        smalltalk_labels.contains (is_smalltalk_or_project message)) = false) :
    chat_with_interviewer pre message doc (Except.error e) submitOk =
      { result := .httpError 500 (s "Error in conversation: " ++ e),
        persisted := pre, extractionInvoked := false } := by
  simp [chat_with_interviewer, hc, hd, hs]
  intro h0
  rw [h0] at hs
  simpa using hs

/-- C5 witness: a concrete failing substantive turn. -/
theorem c5_completion_failure_witness :
    chat_with_interviewer ⟨[], 5, false⟩ (s "We focus on routines at home") DocLookup.noDocs
        (Except.error (s "timeout")) false =
      { result := .httpError 500 (s "Error in conversation: timeout"),
        persisted := ⟨[], 5, false⟩, extractionInvoked := false } := by
  have h := c5_completion_failure ⟨[], 5, false⟩ (s "We focus on routines at home")
    DocLookup.noDocs (s "timeout") false (by decide) (by decide) (by decide)
  rw [h]
  rfl

/-- C10: a document-query turn appends exactly the user message and the
document reply, persists the question index and completion flag unchanged,
never marks the session complete and never invokes extraction. -/
theorem c10_doc_query_frame (pre : SessionData) (message : PyStr) (doc : DocLookup)
    (completion : Except PyStr PyStr) (submitOk : Bool)
    (hc : pre.is_complete = false) (hd : isDocQuery message = true) :
    chat_with_interviewer pre message doc completion submitOk =
      { result := .turnReply (docReply doc) (pre.current_question_index + 1) false false none,
        persisted := { conversation_history := pre.conversation_history ++
                         [⟨"user", message⟩, ⟨"assistant", docReply doc⟩],
                       current_question_index := pre.current_question_index,
                       is_complete := pre.is_complete },
        extractionInvoked := false } := by
  simp [chat_with_interviewer, hc, hd]

/-- C10 witness: a concrete document-query turn. -/
theorem c10_doc_query_frame_witness :
    chat_with_interviewer ⟨[], 2, false⟩ (s "what is in my document?") DocLookup.noDocs
        (Except.error []) false =
      { result := .turnReply (docReply DocLookup.noDocs) 3 false false none,
        persisted := { conversation_history :=
                         [⟨"user", s "what is in my document?"⟩,
                          ⟨"assistant", docReply DocLookup.noDocs⟩],
                       current_question_index := 2,
                       is_complete := false },
        extractionInvoked := false } := by
  have h := c10_doc_query_frame ⟨[], 2, false⟩ (s "what is in my document?") DocLookup.noDocs
    (Except.error []) false (by decide) (by decide)
  rw [h]
  rfl

/-- C4: after a substantive turn, the session is persisted complete exactly
when the incremented index reaches 23 or the sanitized reply contains
"conclude" or "summary" (case-insensitively); on that transition the fixed
closing turn is appended and rule extraction is invoked, otherwise neither
happens. -/
theorem c4_completion_iff (pre : SessionData) (message raw ai : PyStr) (doc : DocLookup)
    (submitOk : Bool) (done : Bool)
    (hc : pre.is_complete = false)
    (hd : isDocQuery message = false)
    (hs : (decide (pre.current_question_index = 0) &&
        smalltalk_labels.contains (is_smalltalk_or_project message)) = false)
    (hai : ai = clean_response (sanitize_question raw))
    (hdone : done = completion_condition (pre.current_question_index + 1) ai) :
    ((chat_with_interviewer pre message doc (Except.ok raw) submitOk).persisted.is_complete
        = done) ∧
    (done = true →
      chat_with_interviewer pre message doc (Except.ok raw) submitOk =
        { result := .turnReply ai (pre.current_question_index + 1 + 1) true submitOk
                       (some finalNoteText),
          persisted := { conversation_history := pre.conversation_history ++
                           [⟨"user", message⟩, ⟨"assistant", ai⟩,
                            ⟨"assistant", finalNoteText⟩],
                         current_question_index := pre.current_question_index + 1,
                         is_complete := true },
          extractionInvoked := true }) ∧
    (done = false →
      chat_with_interviewer pre message doc (Except.ok raw) submitOk =
        { result := .turnReply ai (pre.current_question_index + 1 + 1) false false none,
          persisted := { conversation_history := pre.conversation_history ++
                           [⟨"user", message⟩, ⟨"assistant", ai⟩],
                         current_question_index := pre.current_question_index + 1,
                         is_complete := false },
          extractionInvoked := false }) := by
  subst hai
  have hs2 : ¬(pre.current_question_index = 0 ∧
      is_smalltalk_or_project message ∈ smalltalk_labels) := by
    intro hboth
    obtain ⟨h0, hmem⟩ := hboth
    rw [h0] at hs
    simp at hs
    exact absurd hmem (by simpa using hs)
  cases hcond : completion_condition (pre.current_question_index + 1)
      (clean_response (sanitize_question raw)) with
  | true =>
    rw [hcond] at hdone
    subst hdone
    simp [chat_with_interviewer, hc, hd, hs2, hcond]
  | false =>
    rw [hcond] at hdone
    subst hdone
    simp [chat_with_interviewer, hc, hd, hs2, hcond]

/-- C4 witness: a concrete substantive turn whose reply contains "conclude"
completes the session, appends the closing note and invokes extraction. -/
theorem c4_completion_iff_witness :
    chat_with_interviewer ⟨[], 3, false⟩ (s "We rely on consistent routines") DocLookup.noDocs
        (Except.ok (s "Noted. To conclude, thank you for your time.")) true =
      { result := .turnReply (s "Noted. To conclude, thank you for your time.") 5 true true
                     (some finalNoteText),
        persisted := { conversation_history :=
                         [⟨"user", s "We rely on consistent routines"⟩,
                          ⟨"assistant", s "Noted. To conclude, thank you for your time."⟩,
                          ⟨"assistant", finalNoteText⟩],
                       current_question_index := 4, is_complete := true },
        extractionInvoked := true } := by
  have h := (c4_completion_iff ⟨[], 3, false⟩ (s "We rely on consistent routines")
      (s "Noted. To conclude, thank you for your time.")
      (s "Noted. To conclude, thank you for your time.") DocLookup.noDocs true true
      (by decide) (by decide) (by decide) (by decide) (by decide)).2.1 rfl
  rw [h]
  rfl

/-- C6: extraction post-processing returns the empty list on the sentinel
(case-insensitive), empty or too-short raw output (in particular on exactly
"NONE"); otherwise it returns exactly the stripped non-empty lines passing
the sentinel/length/keyword filter, and every returned rule has length at
least 20 and contains a domain keyword. -/
theorem c6_extract_postprocess_spec (raw : PyStr) :
    (extract_rules_postprocess (s "NONE") = []) ∧
    ((pyUpper (pyStrip raw) = s "NONE" ∨ (pyStrip raw).isEmpty = true ∨
        (pyStrip (pyStrip raw)).length < 10) → extract_rules_postprocess raw = []) ∧
    (¬(pyUpper (pyStrip raw) = s "NONE" ∨ (pyStrip raw).isEmpty = true ∨
        (pyStrip (pyStrip raw)).length < 10) →
      extract_rules_postprocess raw =
        (((pySplitChar '\n' (pyStrip raw)).map pyStrip).filter
          fun t => !t.isEmpty).filter keepTaskStatement) ∧
    (∀ r ∈ extract_rules_postprocess raw,
      20 ≤ r.length ∧ (behavioral_terms.any fun term => pyContains (pyLower r) term) = true) := by
  refine ⟨by decide, ?_, ?_, ?_⟩
  · intro h
    have hcond : (decide (pyUpper (pyStrip raw) = s "NONE") || (pyStrip raw).isEmpty ||
        decide ((pyStrip (pyStrip raw)).length < 10)) = true := by
      rcases h with h | h | h <;> simp [h]
    simp [extract_rules_postprocess, hcond]
  · intro h
    push_neg at h
    obtain ⟨h1, h2, h3⟩ := h
    have hcond : (decide (pyUpper (pyStrip raw) = s "NONE") || (pyStrip raw).isEmpty ||
        decide ((pyStrip (pyStrip raw)).length < 10)) = false := by
      simp [h1, h3]
      simpa using h2
    simp [extract_rules_postprocess, hcond, filter_task_statements_eq]
  · intro r hr
    by_cases hcond : (decide (pyUpper (pyStrip raw) = s "NONE") || (pyStrip raw).isEmpty ||
        decide ((pyStrip (pyStrip raw)).length < 10)) = true
    · have hre : extract_rules_postprocess raw = [] := by
        simp [extract_rules_postprocess, hcond]
      rw [hre] at hr
      exact absurd hr (List.not_mem_nil r)
    · rw [Bool.not_eq_true] at hcond
      have hre : extract_rules_postprocess raw =
          (((pySplitChar '\n' (pyStrip raw)).map pyStrip).filter
            fun t => !t.isEmpty).filter keepTaskStatement := by
        simp [extract_rules_postprocess, hcond, filter_task_statements_eq]
      rw [hre] at hr
      have hk : keepTaskStatement r = true := List.of_mem_filter hr
      simp only [keepTaskStatement, Bool.and_eq_true, Bool.not_eq_true'] at hk
      refine ⟨by simpa using hk.1.2, ?_⟩
      simpa using hk.2

/-- C6 witness: a concrete non-sentinel extraction output keeps exactly its
valid line, and the sentinel input yields the empty list. -/
theorem c6_extract_postprocess_witness :
    extract_rules_postprocess (s "Jamie should praise the child for effort.\nok") =
      [s "Jamie should praise the child for effort."] ∧
    extract_rules_postprocess (s "NONE") = [] := by
  have h := c6_extract_postprocess_spec (s "Jamie should praise the child for effort.\nok")
  refine ⟨?_, h.1⟩
  rw [h.2.2.1 (by decide)]
  decide

/-- Dropping a prefix whose elements all satisfy the predicate reduces
`dropWhile` on an append to the suffix. -/
lemma dropWhile_append_of_forall {p : Char → Bool} (w t : PyStr)
    (hw : ∀ c ∈ w, p c = true) : (w ++ t).dropWhile p = t.dropWhile p := by
  induction w with
  | nil => rfl
  | cons c cs ih =>
    have hc : p c = true := hw c (by simp)
    simp only [List.cons_append, List.dropWhile_cons, hc, if_true]
    exact ih fun d hd => hw d (by simp [hd])

/-- Splitting on `". "` when the text contains no period yields the whole text. -/
lemma splitDotSpace_no_dot :
    ∀ (t acc : PyStr), '.' ∉ t → splitDotSpace t acc = [acc.reverse ++ t] := by
  intro t
  induction t with
  | nil =>
    intro acc h
    simp [splitDotSpace]
  | cons c cs ih =>
    intro acc h
    have hc : ¬(c = '.') := fun hh => h (by simp [hh])
    cases cs with
    | nil => simp [splitDotSpace]
    | cons c2 cs2 =>
      have hcond : (decide (c = '.') && decide (c2 = ' ')) = false := by simp [hc]
      simp only [splitDotSpace, hcond, Bool.false_eq_true, if_false]
      rw [ih (c :: acc) fun hm => h (List.mem_cons_of_mem c hm)]
      simp

/-- C7 counterexample: the chunker returns a non-empty passage list on empty
input — the empty string splits to `[""]`, the loop appends `". "`, and the
trailing flush emits the passage `"."`. -/
theorem c7_empty_input_counterexample :
    ¬ (split_text_into_chunks (s "") = []) := by decide

/-- C7 (amended): on empty or whitespace-only input the chunker returns the
single artifact passage `"."` (not zero passages). -/
theorem c7_whitespace_yields_dot (text : PyStr) (h : ∀ c ∈ text, pyIsSpace c = true) :
    split_text_into_chunks text = [s "."] := by
  have hnd : '.' ∉ text := by
    intro hm
    have := h '.' hm
    exact absurd this (by decide)
  have hstrip : pyStrip (text ++ s ". ") = s "." := by
    unfold pyStrip
    rw [dropWhile_append_of_forall text (s ". ") h]
    decide
  unfold split_text_into_chunks
  rw [splitDotSpace_no_dot text [] hnd]
  simp only [List.reverse_nil, List.nil_append, List.foldl_cons, List.foldl_nil,
    List.isEmpty_nil, Bool.not_true, Bool.and_false, Bool.false_eq_true, if_false]
  simp [hstrip]
  decide

/-- C7 witness: the amended statement at a concrete whitespace input. -/
theorem c7_whitespace_yields_dot_witness :
    split_text_into_chunks (s " \n ") = [s "."] :=
  c7_whitespace_yields_dot (s " \n ") (by decide)

/-- Adding any chunk preserves existing ids in the store. -/
lemma idExists_add {μ : Type} (st : List (StoredChunk μ)) (cid cid2 content : PyStr)
    (meta : μ) (h : idExists st cid = true) :
    idExists (add_document_chunk st cid2 content meta) cid = true := by
  unfold add_document_chunk
  by_cases hex : idExists st cid2 = true
  · rw [if_pos hex]
    exact h
  · rw [if_neg hex]
    unfold idExists at h ⊢
    rw [List.any_append, h]
    rfl

/-- After `add_document_chunk`, the added id exists in the store. -/
lemma idExists_add_self {μ : Type} (st : List (StoredChunk μ)) (cid content : PyStr)
    (meta : μ) : idExists (add_document_chunk st cid content meta) cid = true := by
  unfold add_document_chunk
  by_cases hex : idExists st cid = true
  · rw [if_pos hex]
    exact hex
  · rw [if_neg hex]
    unfold idExists
    rw [List.any_append]
    simp

/-- The ingestion loop preserves existing ids. -/
lemma ingest_preserves {μ : Type} (hashHex : PyStr → PyStr) (sid fn : PyStr)
    (metaOf : Nat → μ) (l : List (Nat × PyStr)) (st : List (StoredChunk μ)) (cid : PyStr)
    (h : idExists st cid = true) :
    idExists (ingestChunksAux hashHex sid fn metaOf l st) cid = true := by
  induction l generalizing st with
  | nil => exact h
  | cons p rest ih =>
    cases p with
    | mk i content =>
      exact ih _ (idExists_add st cid _ content (metaOf i) h)

/-- After the ingestion loop, the id of every processed chunk is present. -/
lemma ingest_mem {μ : Type} (hashHex : PyStr → PyStr) (sid fn : PyStr) (metaOf : Nat → μ)
    (l : List (Nat × PyStr)) (st : List (StoredChunk μ)) (i : Nat) (content : PyStr)
    (hmem : (i, content) ∈ l) :
    idExists (ingestChunksAux hashHex sid fn metaOf l st)
      (chunk_id hashHex sid fn i content) = true := by
  induction l generalizing st with
  | nil => exact absurd hmem (List.not_mem_nil _)
  | cons p rest ih =>
    cases p with
    | mk j c =>
      rcases List.mem_cons.mp hmem with heq | htail
      · cases heq
        simp only [ingestChunksAux]
        exact ingest_preserves hashHex sid fn metaOf rest _ _
          (idExists_add_self st (chunk_id hashHex sid fn i content) content (metaOf i))
      · simp only [ingestChunksAux]
        exact ih _ htail

/-- If every chunk id is already present, the ingestion loop is a no-op. -/
lemma ingest_noop {μ : Type} (hashHex : PyStr → PyStr) (sid fn : PyStr) (metaOf : Nat → μ)
    (l : List (Nat × PyStr)) (st : List (StoredChunk μ))
    (hall : ∀ p ∈ l, idExists st (chunk_id hashHex sid fn p.1 p.2) = true) :
    ingestChunksAux hashHex sid fn metaOf l st = st := by
  induction l with
  | nil => rfl
  | cons p rest ih =>
    cases p with
    | mk i content =>
      have h1 := hall (i, content) (by simp)
      have hadd : add_document_chunk st (chunk_id hashHex sid fn i content) content
          (metaOf i) = st := by
        simp only [add_document_chunk, h1, if_true]
      simp only [ingestChunksAux, hadd]
      exact ih fun q hq => hall q (by simp [hq])

/-- C8: a chunk whose id already exists is skipped by `add_document_chunk`,
chunk ids derive deterministically from session, filename, index and content
hash, and therefore ingesting the same document twice (even with different
per-run metadata such as the upload date) leaves exactly the store produced
by a single ingestion. -/
theorem c8_ingest_idempotent {μ : Type} (hashHex : PyStr → PyStr)
    (store : List (StoredChunk μ)) (session_id filename : PyStr)
    (metaOf metaOf2 : Nat → μ) (content_chunks : List PyStr)
    (cid content : PyStr) (meta : μ) (hdup : idExists store cid = true) :
    add_document_chunk store cid content meta = store ∧
    process_uploaded_file hashHex
        (process_uploaded_file hashHex store session_id filename metaOf content_chunks)
        session_id filename metaOf2 content_chunks =
      process_uploaded_file hashHex store session_id filename metaOf content_chunks := by
  constructor
  · simp only [add_document_chunk, hdup, if_true]
  · unfold process_uploaded_file
    apply ingest_noop
    intro p hp
    exact ingest_mem hashHex session_id filename metaOf content_chunks.enum store p.1 p.2
      (by simpa using hp)

/-- C8 witness: skip-on-duplicate and double-ingestion idempotence at a
concrete store and document. -/
theorem c8_ingest_idempotent_witness :
    add_document_chunk [⟨s "id0", s "x", ()⟩] (s "id0") (s "y") () =
      [⟨s "id0", s "x", ()⟩] ∧
    process_uploaded_file (fun c => c)
        (process_uploaded_file (fun c => c) [⟨s "id0", s "x", ()⟩] (s "sess") (s "doc.txt")
          (fun _ => ()) [s "alpha", s "beta"])
        (s "sess") (s "doc.txt") (fun _ => ()) [s "alpha", s "beta"] =
      process_uploaded_file (fun c => c) [⟨s "id0", s "x", ()⟩] (s "sess") (s "doc.txt")
        (fun _ => ()) [s "alpha", s "beta"] :=
  c8_ingest_idempotent (fun c => c) [⟨s "id0", s "x", ()⟩] (s "sess") (s "doc.txt")
    (fun _ => ()) (fun _ => ()) [s "alpha", s "beta"] (s "id0") (s "y") () (by decide)

/-- The seven labels the classifier can return. -/
def classifier_labels : List PyStr :=
  [s "greeting", s "smalltalk", s "who_are_you", s "who_is_mrfrench", s "who_is_timmy",
   s "about_interview", s "none"]

/-- All phrases of all six phrase sets of the classifier. -/
def all_classifier_phrases : List PyStr :=
  greetings ++ smalltalk ++ who_are_you ++ who_is_mrfrench ++ who_is_timmy ++ about_interview

/-- C9: the classifier is total — every input maps to one of the seven fixed
labels; it depends only on the lowercased, stripped message (so matching is
case- and surrounding-whitespace-insensitive); and an input matching no
phrase set falls through to "none". -/
theorem c9_classifier_total (m m2 : PyStr)
    (hnorm : pyLower (pyStrip m2) = pyLower (pyStrip m)) :
    is_smalltalk_or_project m ∈ classifier_labels ∧
    is_smalltalk_or_project m2 = is_smalltalk_or_project m ∧
    (any_phrase (pyLower (pyStrip m)) all_classifier_phrases = false →
      is_smalltalk_or_project m = s "none") := by
  refine ⟨?_, ?_, ?_⟩
  · unfold is_smalltalk_or_project
    dsimp only
    split_ifs <;> simp [classifier_labels]
  · unfold is_smalltalk_or_project
    rw [hnorm]
  · intro h
    unfold all_classifier_phrases any_phrase at h
    simp only [List.any_append, Bool.or_eq_false_iff] at h
    obtain ⟨⟨⟨⟨⟨h1, h2⟩, h3⟩, h4⟩, h5⟩, h6⟩ := h
    unfold is_smalltalk_or_project
    simp only [any_phrase, h1, h2, h3, h4, h5, h6, Bool.false_eq_true, if_false]
    split_ifs <;> rfl

/-- C9 witness: an unmatched input classifies to "none", and an uppercased,
padded variant classifies identically. -/
theorem c9_classifier_total_witness :
    is_smalltalk_or_project (s "tell me more") ∈ classifier_labels ∧
    is_smalltalk_or_project (s "  TELL ME MORE ") = is_smalltalk_or_project (s "tell me more") ∧
    is_smalltalk_or_project (s "tell me more") = s "none" := by
  have h := c9_classifier_total (s "tell me more") (s "  TELL ME MORE ") (by decide)
  exact ⟨h.1, h.2.1, h.2.2 (by decide)⟩
